import Mathlib

/-!
Verification of the WeatherWander server core (src/server/routes.ts and
src/shared/schema.ts) against its natural-language specification.

The development shallowly embeds the two request handlers
(GET /api/weather and GET /api/distance), their zod-based query validation,
the forecast day-bucketing pipeline, the two mock-data synthesizers and the
Google Maps URL signing helper.  JavaScript numbers are modelled as real
numbers (`ℝ`); the special values NaN / Infinity / -Infinity produced by
numeric coercion are modelled by the dedicated constructors of `JsNum`.
Epoch timestamps are integers; `Date.prototype.toISOString().split('T')[0]`
converts an epoch-milliseconds value to its UTC calendar day, i.e. floor
division by 86400000 (the server container runs with TZ=UTC, so
`setHours(0,0,0,0)` also floors to the UTC day start).
-/

/-! ### Query validation (routes.ts lines 184-191 and 370-388)

`Number(x)` coercion of a query value yields either a finite double, NaN
(missing field or non-numeric string) or ±Infinity (e.g. the string
"Infinity").  zod v3's `z.number()` rejects NaN (parsed type "nan") but
accepts ±Infinity; `z.string().transform(Number)` validates only that the
raw value is a string and never inspects the transformed number. -/

inductive JsNum where
  | num (x : ℝ)
  | nan
  | inf
  | ninf

/-- `Number(undefined) = NaN`: a missing query field coerces to NaN. -/
def coerceQuery : Option JsNum → JsNum
  | none => .nan
  | some v => v

/-- zod v3 `z.number()`: rejects NaN, accepts finite numbers and ±Infinity. -/
def zodNumOk : JsNum → Bool
  | .nan => false
  | _ => true

/-- Query of GET /api/weather: raw `lat`/`lng` after `Number(...)` coercion;
`none` models an absent field (before coercion). -/
structure WeatherQuery where
  lat : Option JsNum
  lng : Option JsNum

/-- `locationSchema.parse({lat: Number(req.query.lat), lng: Number(req.query.lng)})`
(routes.ts lines 188-191): both coerced fields must satisfy `z.number()`. -/
def parseWeatherQuery (q : WeatherQuery) : Except Unit (JsNum × JsNum) :=
  let la := coerceQuery q.lat
  let ln := coerceQuery q.lng
  if zodNumOk la && zodNumOk ln then .ok (la, ln) else .error ()

/-- Query of GET /api/distance: each field is `some v` when the raw query
value is a string whose `Number(...)` coercion is `v`, and `none` when the
field is missing (or not a string), which `z.string()` rejects. -/
structure DistanceQuery where
  originLat : Option JsNum
  originLng : Option JsNum
  destLat : Option JsNum
  destLng : Option JsNum

/-- `querySchema.parse(req.query)` (routes.ts lines 373-382, 388):
`z.string().transform(val => Number(val))` on each nested field; the
transform output is never validated, so NaN/Infinity pass through. -/
def parseDistanceQuery (q : DistanceQuery) :
    Except Unit ((JsNum × JsNum) × (JsNum × JsNum)) :=
  match q.originLat, q.originLng, q.destLat, q.destLng with
  | some a, some b, some c, some d => .ok ((a, b), (c, d))
  | _, _, _, _ => .error ()

/-- Control flow of the /api/weather handler up to the upstream call:
the zod parse (line 188) precedes the API-key check (line 193); the
upstream request (lines 210-213) is reached only if both succeed. -/
def weatherAttemptsUpstream (q : WeatherQuery) (keyConfigured : Bool) : Bool :=
  (parseWeatherQuery q).isOk && keyConfigured

/-- Control flow of the /api/distance handler up to the upstream call:
the API-key check (line 384) precedes the zod parse (line 388); the
upstream request (line 397) is reached only if both succeed. -/
def distanceAttemptsUpstream (q : DistanceQuery) (keyConfigured : Bool) : Bool :=
  keyConfigured && (parseDistanceQuery q).isOk

/-! ### Weather data model (schema.ts and the OpenWeatherMap payloads) -/

structure WeatherEntry where
  icon : String
  description : String
deriving DecidableEq

/-- One 3-hour sample of the 5-day forecast payload: `item.dt` (epoch
seconds, UTC), `item.main.temp`, and `item.weather[0]`. -/
structure ForecastItem where
  dt : ℤ
  temp : ℝ
  weather : WeatherEntry

structure CurrentW where
  temp : ℝ
  weather : List WeatherEntry

/-- The joined upstream data of the two parallel calls (routes.ts lines
210-224): the forecast `list`, the current weather, and
`currentResponse.data.timezone` (offset in seconds from UTC; `|| 0`
keeps an absent field at 0). -/
structure UpstreamWeather where
  list : List ForecastItem
  current : CurrentW
  tz : ℤ

structure TempRange where
  min : ℝ
  max : ℝ

structure DayForecast where
  temp : TempRange
  weather : List WeatherEntry

structure WeatherSnapshot where
  current : CurrentW
  daily : List DayForecast
  isMockData : Option Bool

/-- `Math.round(x * 10) / 10` (routes.ts lines 300-301): round to one
decimal place; JS `Math.round` is floor(x + 1/2), exactly Mathlib's
`round`. -/
noncomputable def roundTo1 (x : ℝ) : ℝ := ((round (x * 10) : ℤ) : ℝ) / 10

/-- UTC calendar day (days since epoch) of an epoch-milliseconds instant
shifted by the location's UTC offset: the day part of
`new Date(ms + tzSec*1000).toISOString()`.  Int division on a positive
divisor is floor division. -/
def localDayMs (tzSec ms : ℤ) : ℤ := (ms + tzSec * 1000) / 86400000

/-- Local calendar day of a forecast sample (routes.ts lines 253-256). -/
def sampleDay (tzSec : ℤ) (it : ForecastItem) : ℤ := localDayMs tzSec (it.dt * 1000)

/-- Local calendar day of "now" — the anchor day of bucket 0 (routes.ts
lines 229-234). -/
def anchorDay (tzSec nowMs : ℤ) : ℤ := localDayMs tzSec nowMs

/-- Per-day accumulation state (routes.ts lines 244-248): running min/max
temperature (`Infinity`/`-Infinity` sentinels become `none`), the sample
weather entries in arrival order, and the icon frequency table
`weatherCounts` in insertion order (JS objects iterate non-index string
keys, such as OpenWeatherMap icon codes, in insertion order). -/
structure Bucket where
  minT : Option ℝ
  maxT : Option ℝ
  weathers : List WeatherEntry
  counts : List (String × ℕ)

def emptyBucket : Bucket := ⟨none, none, [], []⟩

/-- `forecasts[dateStr].weatherCounts[weather.icon]++` with on-demand key
creation (routes.ts lines 271-274). -/
def bumpCount : List (String × ℕ) → String → List (String × ℕ)
  | [], i => [(i, 1)]
  | (j, n) :: rest, i =>
      if j = i then (j, n + 1) :: rest else (j, n) :: bumpCount rest i

/-- Processing one forecast sample into its bucket (routes.ts lines
259-276). -/
noncomputable def updateBucket (b : Bucket) (it : ForecastItem) : Bucket :=
  { minT := some (match b.minT with
      | none => it.temp
      | some m => if it.temp < m then it.temp else m)
    maxT := some (match b.maxT with
      | none => it.temp
      | some m => if m < it.temp then it.temp else m)
    weathers := b.weathers ++ [it.weather]
    counts := bumpCount b.counts it.weather.icon }

/-- The scan of routes.ts lines 282-290: starting from
`mostCommonIcon = ''`, `maxCount = 0`, replace the current best only on a
strictly greater count. -/
def mostCommonScan : String × ℕ → List (String × ℕ) → String × ℕ
  | best, [] => best
  | (b, n), (i, c) :: rest =>
      if n < c then mostCommonScan (i, c) rest else mostCommonScan (b, n) rest

def mostCommonIcon (counts : List (String × ℕ)) : String :=
  (mostCommonScan ("", 0) counts).1

/-- `dayForecast.weather.find(w => w.icon === mostCommonIcon) || dayForecast.weather[0]`
wrapped in a one-element array (routes.ts lines 293-296). -/
def repWeather (b : Bucket) : List WeatherEntry :=
  match b.weathers.find? (fun w => w.icon = mostCommonIcon b.counts) with
  | some w => [w]
  | none => b.weathers.take 1

/-- Finalize a bucket (routes.ts lines 280-310): pick the representative
condition, round min/max to one decimal, and back-fill a bucket that
received no samples (`temp.min === Infinity`) from the current weather. -/
noncomputable def finalizeBucket (cur : CurrentW) (b : Bucket) : DayForecast :=
  match b.minT, b.maxT with
  | some m, some M =>
      { temp := { min := roundTo1 m, max := roundTo1 M }, weather := repWeather b }
  | _, _ =>
      { temp := { min := roundTo1 (cur.temp - 5), max := roundTo1 (cur.temp + 5) }
        weather := cur.weather }

/-- The samples assigned to bucket `i` (`i = 0..3`): those whose local
calendar day is the anchor day plus `i`.  Samples whose day string is not
one of the four initialized keys are skipped
(`if (forecasts[dateStr])`, routes.ts line 259). -/
def bucketItemsFor (u : UpstreamWeather) (nowMs : ℤ) (i : ℕ) : List ForecastItem :=
  u.list.filter (fun it => sampleDay u.tz it = anchorDay u.tz nowMs + i)

noncomputable def bucketFor (u : UpstreamWeather) (nowMs : ℤ) (i : ℕ) : Bucket :=
  (bucketItemsFor u nowMs i).foldl updateBucket emptyBucket

/-- The whole success-path transformation (routes.ts lines 218-319):
`Object.values(forecasts)` keeps the four date keys in insertion order
(today + 0..3), so `daily` is the finalized buckets in day order.
`isMockData` is absent on authentic data. -/
noncomputable def transformWeather (u : UpstreamWeather) (nowMs : ℤ) : WeatherSnapshot :=
  { current := u.current
    daily := (List.range 4).map (fun i => finalizeBucket u.current (bucketFor u nowMs i))
    isMockData := none }

/-! ### Mock weather synthesizer (routes.ts lines 56-114) -/

/-- `parseFloat(x.toFixed(1))`: numerically, rounding to one decimal. -/
noncomputable def jsToFixed1 (x : ℝ) : ℝ := roundTo1 x

/-- `generateMockWeatherData(lat, lng)`.  `rand` supplies the successive
`Math.random()` values (two per mock day, high before low). -/
noncomputable def generateMockWeatherData (lat lng : ℝ) (rand : ℕ → ℝ) : WeatherSnapshot :=
  let tempVariation := jsToFixed1 (Real.sin (lat * lng * 0.01) * 10)
  let currentTemp := jsToFixed1 (20 + tempVariation)
  let entry : WeatherEntry :=
    if currentTemp < 15 then ⟨"03d", "clouds"⟩
    else if 25 < currentTemp then ⟨"01d", "clear"⟩
    else ⟨"02d", "few clouds"⟩
  { current := { temp := currentTemp, weather := [entry] }
    daily := (List.range 4).map (fun (i : ℕ) =>
      let dayVariation : ℝ := i * 0.5
      let hi := rand (2 * i)
      let lo := rand (2 * i + 1)
      let dayHigh := currentTemp + 3 + dayVariation + hi * 2
      let dayLow := currentTemp - 5 + dayVariation - lo * 2
      { temp := { min := jsToFixed1 dayLow, max := jsToFixed1 dayHigh }
        weather := [entry] })
    isMockData := some true }

/-! ### The /api/weather handler after validation (routes.ts lines 208-357) -/

/-- An axios rejection: `response` present (upstream non-2xx), only
`request` present (network error), or neither (setup error).  A malformed
payload that makes the transformation throw is caught by the same
`catch (apiError)` and behaves like the setup-error case. -/
inductive ApiError where
  | response (status : ℕ)
  | request
  | other (msg : String)

structure Coord where
  lat : ℝ
  lng : ℝ

structure WResp where
  status : ℕ
  body : WeatherSnapshot

/-- The handler body once coordinates are validated and the API key is
configured: on upstream success, normalize; on any upstream failure
(all three `apiError` branches, routes.ts lines 326-357), fall back to
mock data with HTTP 200. -/
noncomputable def getWeatherCore (c : Coord) (nowMs : ℤ) (upstream : Except ApiError UpstreamWeather)
    (rand : ℕ → ℝ) : WResp :=
  match upstream with
  | .ok u => { status := 200, body := transformWeather u nowMs }
  | .error _ => { status := 200, body := generateMockWeatherData c.lat c.lng rand }

/-! ### Mock distance synthesizer (routes.ts lines 123-181) -/

/-- JavaScript `Math.atan2(y, x)` (only the `x ≥ 0` half-plane is ever
reached here, the arguments being square roots). -/
noncomputable def jsAtan2 (y x : ℝ) : ℝ :=
  if 0 < x then Real.arctan (y / x)
  else if x < 0 then
    (if y < 0 then Real.arctan (y / x) - Real.pi else Real.arctan (y / x) + Real.pi)
  else if 0 < y then Real.pi / 2
  else if y < 0 then -(Real.pi / 2)
  else 0

structure GDuration where
  text : String
  value : ℤ
deriving DecidableEq

structure GElement where
  status : String
  duration : Option GDuration
  error_message : Option String

structure GRow where
  elements : List GElement

/-- `Math.floor(m / 60)` and `m % 60` of routes.ts lines 160-161; for the
non-negative minutes produced here these agree with Int's Euclidean
division. -/
def formatTravelTime (m : ℤ) : String :=
  if m < 60 then s!"{m} mins"
  else
    let hours := m / 60
    let mins := m % 60
    if mins = 0 then
      s!"{hours} " ++ (if hours = 1 then "hour" else "hours")
    else
      s!"{hours} " ++ (if hours = 1 then "hour" else "hours") ++ s!" {mins} mins"

/-- The haversine intermediate values and result of routes.ts lines
124-153, kept as a tuple (adjusted distance, average speed, travel
minutes) so the tier selection can be spoken about directly. -/
noncomputable def mockDistanceCalc (origin destination : Coord) : ℝ × ℝ × ℤ :=
  let dLat := (destination.lat - origin.lat) * (Real.pi / 180)
  let dLng := (destination.lng - origin.lng) * (Real.pi / 180)
  let a := Real.sin (dLat / 2) * Real.sin (dLat / 2) +
    Real.cos (origin.lat * (Real.pi / 180)) * Real.cos (destination.lat * (Real.pi / 180)) *
    Real.sin (dLng / 2) * Real.sin (dLng / 2)
  let c := 2 * jsAtan2 (Real.sqrt a) (Real.sqrt (1 - a))
  let distance := 6371 * c
  let routeFactor : ℝ := 1.3
  let adjustedDistance := distance * routeFactor
  let averageSpeed : ℝ :=
    if adjustedDistance < 5 then 30
    else if adjustedDistance < 20 then 60
    else 100
  let travelTimeMinutes := round (adjustedDistance / averageSpeed * 60)
  (adjustedDistance, averageSpeed, travelTimeMinutes)

structure DistancePayload where
  rows : List GRow
  isMockData : Bool

/-- `generateMockDistanceData(origin, destination)` (routes.ts lines
123-181). -/
noncomputable def generateMockDistanceData (origin destination : Coord) : DistancePayload :=
  let m := (mockDistanceCalc origin destination).2.2
  { rows := [{ elements := [{ status := "OK"
                              duration := some { text := formatTravelTime m, value := m * 60 }
                              error_message := none }] }]
    isMockData := true }

/-! ### The /api/distance handler after validation (routes.ts lines 396-450) -/

/-- The upstream Distance Matrix body once parsed: its top-level `status`
and the `rows` kept by `distanceResponseSchema` (zod strips unknown
keys). -/
structure GoogleResp where
  status : String
  rows : List GRow

structure AxiosRespInfo where
  status : ℕ
  error_message : Option String

/-- An axios rejection for the distance call: `response` carries the
upstream HTTP status and optional `error_message` body field when the
upstream answered non-2xx; `message` is the Error message used when no
response exists (network failure). -/
structure AxiosErr where
  response : Option AxiosRespInfo
  message : String

inductive DBody where
  | payload (rows : List GRow) (isMockData : Bool)
  | failure (errorMsg : String)

structure DResp where
  status : ℕ
  body : DBody

/-- JS `a || b` for an optional string: an absent or empty (falsy)
`error_message` falls back to the default. -/
def truthyGetD (o : Option String) (dflt : String) : String :=
  match o with
  | some s => if s = "" then dflt else s
  | none => dflt

/-- `distance.rows[0]?.elements[0]` (routes.ts line 408). -/
def firstElement (rows : List GRow) : Option GElement :=
  rows.head?.bind (fun r => r.elements.head?)

/-- The handler body once both coordinates are validated and the API key
is configured (routes.ts lines 396-450): on upstream success, check the
top-level status, then the single element; element status ≠ "OK" or a
missing duration raises an Error that the outer catch turns into HTTP 400.
On an axios rejection carrying a response status, 401/403 substitute mock
data (HTTP 200); any other (truthy) status becomes an Error carrying the
provider status code and message; without a response the original error
message is surfaced.  All surfaced errors are HTTP 400. -/
noncomputable def getDistanceCore (origin destination : Coord)
    (upstream : Except AxiosErr GoogleResp) : DResp :=
  match upstream with
  | .ok resp =>
      if resp.status ≠ "OK" then
        { status := 400, body := .failure ("Distance Matrix API error: " ++ resp.status) }
      else
        match firstElement resp.rows with
        | none => { status := 400, body := .failure "Could not calculate travel time" }
        | some el =>
            if el.status ≠ "OK" ∨ el.duration = none then
              { status := 400
                body := .failure (truthyGetD el.error_message "Could not calculate travel time") }
            else
              { status := 200, body := .payload resp.rows false }
  | .error e =>
      match e.response with
      | some r =>
          if r.status ≠ 0 then
            if r.status = 401 ∨ r.status = 403 then
              let mock := generateMockDistanceData origin destination
              { status := 200, body := .payload mock.rows mock.isMockData }
            else
              { status := 400
                body := .failure ("Google Maps API error: " ++ toString r.status ++ " - " ++
                  truthyGetD r.error_message "Unknown error") }
          else
            { status := 400, body := .failure e.message }
      | none => { status := 400, body := .failure e.message }

/-- Whether a distance response carries mock data. -/
def isMockDResp : DResp → Bool
  | { body := .payload _ m, .. } => m
  | _ => false

/-! ### URL signing (routes.ts lines 17-50)

`CryptoJS.HmacSHA1` / `CryptoJS.enc.Base64` are embedded as a byte-level
SHA-1 / HMAC / base64 implementation over `List ℕ` (bytes < 256, words
< 2^32 kept by explicit `% 4294967296`). -/

def rotl32 (x n : Nat) : Nat := ((x <<< n) % 4294967296) ||| (x >>> (32 - n))

def sha1F (t b c d : Nat) : Nat :=
  if t < 20 then (b &&& c) ||| ((b ^^^ 4294967295) &&& d)
  else if t < 40 then b ^^^ c ^^^ d
  else if t < 60 then (b &&& c) ||| (b &&& d) ||| (c &&& d)
  else b ^^^ c ^^^ d

def sha1K (t : Nat) : Nat :=
  if t < 20 then 1518500249
  else if t < 40 then 1859775393
  else if t < 60 then 2400959708
  else 3395469782

/-- Big-endian byte expansion of `n` on `k` bytes. -/
def beBytes (k n : Nat) : List Nat :=
  (List.range k).map (fun i => (n >>> (8 * (k - 1 - i))) % 256)

/-- Merkle–Damgård padding: append 0x80, zeros, and the 64-bit big-endian
bit length, reaching a multiple of 64 bytes. -/
def sha1Pad (msg : List Nat) : List Nat :=
  let zeros := (64 + 56 - (msg.length + 1) % 64) % 64
  msg ++ 128 :: List.replicate zeros 0 ++ beBytes 8 (msg.length * 8)

def bytesToWords : List Nat → List Nat
  | a :: b :: c :: d :: rest => (((a * 256 + b) * 256 + c) * 256 + d) :: bytesToWords rest
  | _ => []

/-- Message schedule: extend the 16 block words to 80. -/
def sha1Schedule (ws : Array Nat) : Array Nat :=
  (List.range 64).foldl (fun acc _ =>
    acc.push (rotl32 ((acc.getD (acc.size - 3) 0) ^^^ (acc.getD (acc.size - 8) 0) ^^^
      (acc.getD (acc.size - 14) 0) ^^^ (acc.getD (acc.size - 16) 0)) 1)) ws

def sha1Round (st : Nat × Nat × Nat × Nat × Nat) (t w : Nat) : Nat × Nat × Nat × Nat × Nat :=
  let (a, b, c, d, e) := st
  ((rotl32 a 5 + sha1F t b c d + e + sha1K t + w) % 4294967296, a, rotl32 b 30, c, d)

def sha1Compress (h : Nat × Nat × Nat × Nat × Nat) (block : List Nat) :
    Nat × Nat × Nat × Nat × Nat :=
  let ws := sha1Schedule (Array.mk (bytesToWords block))
  let (a, b, c, d, e) :=
    (List.range 80).foldl (fun st t => sha1Round st t (ws.getD t 0)) h
  ((h.1 + a) % 4294967296, (h.2.1 + b) % 4294967296, (h.2.2.1 + c) % 4294967296,
    (h.2.2.2.1 + d) % 4294967296, (h.2.2.2.2 + e) % 4294967296)

def chunks64 (l : List Nat) : List (List Nat) :=
  if h : l = [] then [] else l.take 64 :: chunks64 (l.drop 64)
termination_by l.length
decreasing_by
  simp only [List.length_drop]
  cases l with
  | nil => exact absurd rfl h
  | cons a t => simp only [List.length_cons]; omega

/-- SHA-1 digest (20 bytes) of a byte string. -/
def sha1 (msg : List Nat) : List Nat :=
  let st := (chunks64 (sha1Pad msg)).foldl sha1Compress
    (1732584193, 4023233417, 2562383102, 271733878, 3285377520)
  beBytes 4 st.1 ++ beBytes 4 st.2.1 ++ beBytes 4 st.2.2.1 ++
    beBytes 4 st.2.2.2.1 ++ beBytes 4 st.2.2.2.2

/-- HMAC-SHA1 (RFC 2104) with a 64-byte block. -/
def hmacSha1 (key msg : List Nat) : List Nat :=
  let k0 := if 64 < key.length then sha1 key else key
  let kp := k0 ++ List.replicate (64 - k0.length) 0
  sha1 ((kp.map (fun b => b ^^^ 92)) ++ sha1 ((kp.map (fun b => b ^^^ 54)) ++ msg))

def b64Alphabet : List Char :=
  "ABCDEFGHIJKLMNOPQRSTUVWXYZabcdefghijklmnopqrstuvwxyz0123456789+/".data

def b64char (n : Nat) : Char := b64Alphabet.getD n 'A'

def b64encodeBytes : List Nat → List Char
  | [] => []
  | [a] => [b64char (a >>> 2), b64char ((a % 4) <<< 4), '=', '=']
  | [a, b] => [b64char (a >>> 2), b64char (((a % 4) <<< 4) + (b >>> 4)),
      b64char ((b % 16) <<< 2), '=']
  | a :: b :: c :: rest =>
      b64char (a >>> 2) :: b64char (((a % 4) <<< 4) + (b >>> 4)) ::
      b64char (((b % 16) <<< 2) + (c >>> 6)) :: b64char (c % 64) :: b64encodeBytes rest

def b64charVal (c : Char) : Nat := b64Alphabet.indexOf c

def b64decodeVals : List Nat → List Nat
  | a :: b :: c :: d :: rest =>
      ((a <<< 2) + (b >>> 4)) :: (((b % 16) <<< 4) + (c >>> 2)) ::
      (((c % 4) <<< 6) + d) :: b64decodeVals rest
  | [a, b, c] => [(a <<< 2) + (b >>> 4), ((b % 16) <<< 4) + (c >>> 2)]
  | [a, b] => [(a <<< 2) + (b >>> 4)]
  | _ => []

/-- `CryptoJS.enc.Base64.parse` of a (well-formed) base64 secret. -/
def b64decodeStr (s : String) : List Nat :=
  b64decodeVals ((s.data.takeWhile (fun c => c ≠ '=')).map b64charVal)

/-- Does `pat` occur at the head of `l`? -/
def leadsWith : List Char → List Char → Bool
  | [], _ => true
  | _ :: _, [] => false
  | a :: as, b :: bs => a == b && leadsWith as bs

/-- `url.split(sep)[0]`: the prefix before the first occurrence of `sep`
(the whole list when `sep` does not occur). -/
def takeUntilSub (sep : List Char) : List Char → List Char
  | [] => []
  | c :: rest => if leadsWith sep (c :: rest) then [] else c :: takeUntilSub sep rest

/-- The suffix after the first occurrence of `sep`, if any. -/
def afterSub (sep : List Char) : List Char → Option (List Char)
  | [] => if leadsWith sep [] then some [] else none
  | c :: rest =>
      if leadsWith sep (c :: rest) then some ((c :: rest).drop sep.length)
      else afterSub sep rest

def containsSub (sep l : List Char) : Bool := (afterSub sep l).isSome

def notHostEnd (c : Char) : Bool := !(c == '/' || c == '?' || c == '#')

/-- `new URL(u).pathname + new URL(u).search` for an absolute URL in
canonical form (`scheme://host/path?query`): everything from the first
`/` or `?` after the authority, without any `#` fragment; an empty or
query-only remainder gets the normalized pathname `/`.  `none` models the
`TypeError` of the `URL` constructor on input without a scheme separator,
which the `catch` of `signGoogleMapsUrl` turns into returning the URL
unchanged. -/
def urlPathQuery (l : List Char) : Option (List Char) :=
  match afterSub "://".data l with
  | none => none
  | some rest =>
      let pq := (rest.dropWhile notHostEnd).takeWhile (fun c => c ≠ '#')
      match pq with
      | [] => some ['/']
      | '/' :: _ => some pq
      | _ => some ('/' :: pq)

def utf8Bytes (s : String) : List Nat := s.toUTF8.toList.map (fun b => b.toNat)

/-- One global single-character regex replacement. -/
def replChar (a b : Char) (l : List Char) : List Char :=
  l.map (fun c => if c = a then b else c)

/-- `.replace(/\+/g, '-').replace(/\//g, '_')` (routes.ts lines 40-41). -/
def urlSafeChars (l : List Char) : List Char := replChar '/' '_' (replChar '+' '-' l)

/-- `.replace(/=+$/, '')` (routes.ts line 42): strip the trailing run of
padding characters. -/
def stripTrailingEq (l : List Char) : List Char :=
  (l.reverse.dropWhile (fun c => c == '=')).reverse

/-- The URL-safe signature string computed by routes.ts lines 32-42 for a
given signing secret and path+query message — equally, the spec's §4.3
step 4: HMAC-SHA1 over the path + query keyed by the base64-decoded
secret, base64-encoded, `+`→`-`, `/`→`_`, trailing `=` stripped. -/
def rawSignature (secret : String) (pathQuery : List Char) : String :=
  String.mk (stripTrailingEq (urlSafeChars (b64encodeBytes
    (hmacSha1 (b64decodeStr secret) (utf8Bytes (String.mk pathQuery))))))

/-- `signGoogleMapsUrl(url)` (routes.ts lines 17-50) with the signing
secret made an explicit argument. -/
def signGoogleMapsUrl (secret url : String) : String :=
  if secret = "" then url
  else
    match urlPathQuery (takeUntilSub "&key=".data url.data) with
    | none => url
    | some pq => url ++ "&signature=" ++ rawSignature secret pq


/-! ### Derived definitions used by the statements -/

/-- A forecast sample whose local day falls inside the 4-day bucket
window. -/
def inWindow (tzSec nowMs : ℤ) (it : ForecastItem) : Bool :=
  decide (anchorDay tzSec nowMs ≤ sampleDay tzSec it) &&
    decide (sampleDay tzSec it < anchorDay tzSec nowMs + 4)

/-- The icon frequency table built from an icon sequence (the
`weatherCounts` object after all samples of a bucket are processed). -/
def countsOf (seq : List String) : List (String × ℕ) := seq.foldl bumpCount []

/-- The largest count appearing in a frequency table. -/
def maxCnt (l : List (String × ℕ)) : ℕ := l.foldr (fun e acc => max e.2 acc) 0

/-- The count recorded for icon `x` in a frequency table (0 when the key
is absent). -/
def lookupCnt (l : List (String × ℕ)) (x : String) : ℕ :=
  match l.find? (fun e => e.1 = x) with
  | some e => e.2
  | none => 0

/-- The mock distance synthesizer as the spec (§4.5) words it: haversine
great-circle distance on Earth radius 6371 km, road-indirection factor
1.3, an average speed tier selected by distance band (<5km → 30km/h,
<20km → 60km/h, else 100km/h), rounded travel minutes, the human-readable
duration text, element status "OK", and `isMockData: true`. -/
noncomputable def specMockDistance (origin destination : Coord) : DistancePayload :=
  let phi1 := origin.lat * (Real.pi / 180)
  let phi2 := destination.lat * (Real.pi / 180)
  let dphi := (destination.lat - origin.lat) * (Real.pi / 180)
  let dlam := (destination.lng - origin.lng) * (Real.pi / 180)
  let hav := Real.sin (dphi / 2) ^ 2 + Real.cos phi1 * Real.cos phi2 * Real.sin (dlam / 2) ^ 2
  let greatCircle := 6371 * (2 * jsAtan2 (Real.sqrt hav) (Real.sqrt (1 - hav)))
  let roadDistance := 1.3 * greatCircle
  let speed : ℝ := if roadDistance < 5 then 30 else if roadDistance < 20 then 60 else 100
  let minutes := round (roadDistance / speed * 60)
  { rows := [{ elements := [{ status := "OK"
                              duration := some { text := formatTravelTime minutes
                                                 value := 60 * minutes }
                              error_message := none }] }]
    isMockData := true }

/-! ### Helper lemmas -/

theorem roundTo1_mono {x y : ℝ} (h : x ≤ y) : roundTo1 x ≤ roundTo1 y := by
  unfold roundTo1
  have hr : round (x * 10) ≤ round (y * 10) := by
    rw [round_eq, round_eq]
    exact Int.floor_le_floor (by linarith)
  have hc : ((round (x * 10) : ℤ) : ℝ) ≤ ((round (y * 10) : ℤ) : ℝ) := by exact_mod_cast hr
  linarith

/-- The min/max fields of a bucket are `none` together or ordered together. -/
def bucketOk (b : Bucket) : Prop :=
  (b.minT = none ∧ b.maxT = none) ∨ ∃ m M, b.minT = some m ∧ b.maxT = some M ∧ m ≤ M

theorem updateBucket_ok {b : Bucket} (hb : bucketOk b) (it : ForecastItem) :
    bucketOk (updateBucket b it) := by
  rcases hb with ⟨h1, h2⟩ | ⟨m, M, h1, h2, h3⟩
  · right
    exact ⟨it.temp, it.temp, by simp [updateBucket, h1], by simp [updateBucket, h2], le_refl _⟩
  · right
    refine ⟨if it.temp < m then it.temp else m, if M < it.temp then it.temp else M,
      ?_, ?_, ?_⟩
    · simp [updateBucket, h1]
    · simp [updateBucket, h2]
    · split_ifs <;> linarith

theorem foldl_updateBucket_ok {b : Bucket} (hb : bucketOk b) (items : List ForecastItem) :
    bucketOk (items.foldl updateBucket b) := by
  induction items generalizing b with
  | nil => exact hb
  | cons it t ih => exact ih (updateBucket_ok hb it)

theorem foldl_updateBucket_minT_isSome (items : List ForecastItem) (b : Bucket)
    (hb : b.minT.isSome) : ((items.foldl updateBucket b).minT).isSome := by
  induction items generalizing b with
  | nil => exact hb
  | cons it t ih => exact ih _ (by simp [updateBucket])

theorem bucketFor_minT_isSome (u : UpstreamWeather) (nowMs : ℤ) (i : ℕ)
    (hne : bucketItemsFor u nowMs i ≠ []) : ((bucketFor u nowMs i).minT).isSome := by
  unfold bucketFor
  cases h : bucketItemsFor u nowMs i with
  | nil => exact absurd h hne
  | cons it t =>
      rw [List.foldl_cons]
      exact foldl_updateBucket_minT_isSome t _ (by simp [updateBucket])

theorem mockDistanceCalc_self (p : Coord) : mockDistanceCalc p p = (0, 30, 0) := by
  unfold mockDistanceCalc jsAtan2
  norm_num [Real.sin_zero, Real.sqrt_zero, Real.sqrt_one, Real.arctan_zero]

/-! ### Claim theorems -/

/-- C3: whenever the upstream weather call fails for any reason (non-2xx
response, network error, or a setup/parsing error), the handler still
answers HTTP 200 with a synthetic snapshot marked `isMockData: true`; the
failure is never propagated. -/
theorem weather_upstream_failure_yields_mock (c : Coord) (nowMs : ℤ) (e : ApiError)
    (rand : ℕ → ℝ) :
    (getWeatherCore c nowMs (.error e) rand).status = 200 ∧
    (getWeatherCore c nowMs (.error e) rand).body.isMockData = some true :=
  ⟨rfl, rfl⟩

/-- C10: for coincident origin and destination the haversine distance is 0,
so the mock distance synthesizer reports status "OK" with a duration of 0
seconds and the text "0 mins" — zero, not strictly positive, travel time. -/
theorem mock_distance_coincident (p : Coord) :
    generateMockDistanceData p p =
      { rows := [{ elements := [{ status := "OK"
                                  duration := some { text := "0 mins", value := 0 }
                                  error_message := none }] }]
        isMockData := true } := by
  unfold generateMockDistanceData
  rw [mockDistanceCalc_self]
  rfl

/-- C4: when the routing upstream call itself succeeds but the single route
element has a non-"OK" status or no duration, the handler answers HTTP 400
with the element's error message (or the descriptive default) and does not
substitute mock data. -/
theorem distance_element_not_ok (origin destination : Coord) (resp : GoogleResp)
    (el : GElement) (hstat : resp.status = "OK") (hel : firstElement resp.rows = some el)
    (hbad : el.status ≠ "OK" ∨ el.duration = none) :
    getDistanceCore origin destination (.ok resp) =
      { status := 400
        body := .failure (truthyGetD el.error_message "Could not calculate travel time") } ∧
    isMockDResp (getDistanceCore origin destination (.ok resp)) = false := by
  have hmain : getDistanceCore origin destination (.ok resp) =
      { status := 400
        body := .failure (truthyGetD el.error_message "Could not calculate travel time") } := by
    simp only [getDistanceCore]
    rw [hstat, hel]
    simp [hbad]
  exact ⟨hmain, by rw [hmain]; rfl⟩

/-- Witness for C4 at a concrete "ZERO_RESULTS" element. -/
theorem distance_element_not_ok_witness :
    getDistanceCore ⟨0, 0⟩ ⟨0, 1⟩
        (.ok ⟨"OK", [⟨[⟨"ZERO_RESULTS", none, none⟩]⟩]⟩) =
      { status := 400, body := .failure "Could not calculate travel time" } ∧
    isMockDResp (getDistanceCore ⟨0, 0⟩ ⟨0, 1⟩
        (.ok ⟨"OK", [⟨[⟨"ZERO_RESULTS", none, none⟩]⟩]⟩)) = false :=
  distance_element_not_ok ⟨0, 0⟩ ⟨0, 1⟩ ⟨"OK", [⟨[⟨"ZERO_RESULTS", none, none⟩]⟩]⟩
    ⟨"ZERO_RESULTS", none, none⟩ rfl rfl (Or.inl (by decide))

/-- C5: on a transport failure of the routing call the handler substitutes
the synthetic result (HTTP 200, `isMockData: true`) exactly when the
upstream HTTP status is 401 or 403; any other (truthy) status is surfaced
as an HTTP 400 error carrying the provider's status code and message. -/
theorem distance_transport_fallback (origin destination : Coord) (e : AxiosErr) :
    ((isMockDResp (getDistanceCore origin destination (.error e)) = true ∧
        (getDistanceCore origin destination (.error e)).status = 200) ↔
      (∃ r, e.response = some r ∧ (r.status = 401 ∨ r.status = 403))) ∧
    (∀ r, e.response = some r → ¬(r.status = 401 ∨ r.status = 403) → r.status ≠ 0 →
      getDistanceCore origin destination (.error e) =
        { status := 400
          body := .failure ("Google Maps API error: " ++ toString r.status ++ " - " ++
            truthyGetD r.error_message "Unknown error") }) := by
  constructor
  · cases hr : e.response with
    | none =>
        simp only [getDistanceCore, hr]
        constructor
        · rintro ⟨hm, -⟩; exact absurd hm (by simp [isMockDResp])
        · rintro ⟨r, hsome, -⟩; exact absurd hsome (by simp)
    | some r =>
        simp only [getDistanceCore, hr]
        by_cases h0 : r.status = 0
        · rw [if_neg (by simp [h0])]
          constructor
          · rintro ⟨hm, -⟩; exact absurd hm (by simp [isMockDResp])
          · rintro ⟨r', hr', h401⟩
            injection hr' with hrr
            subst hrr
            omega
        · rw [if_pos h0]
          by_cases h41 : r.status = 401 ∨ r.status = 403
          · rw [if_pos h41]
            exact ⟨fun _ => ⟨r, rfl, h41⟩, fun _ => ⟨rfl, rfl⟩⟩
          · rw [if_neg h41]
            constructor
            · rintro ⟨hm, -⟩; exact absurd hm (by simp [isMockDResp])
            · rintro ⟨r', hr', h401⟩
              injection hr' with hrr
              subst hrr
              exact absurd h401 h41
  · intro r hr hno h0
    simp only [getDistanceCore, hr]
    rw [if_pos h0, if_neg hno]

/-- Witness for C5: a 401 yields mock data; a 429 is surfaced with the
provider's status and message. -/
theorem distance_transport_fallback_witness :
    (isMockDResp (getDistanceCore ⟨0, 0⟩ ⟨0, 1⟩ (.error ⟨some ⟨401, none⟩, "auth"⟩)) = true ∧
      (getDistanceCore ⟨0, 0⟩ ⟨0, 1⟩ (.error ⟨some ⟨401, none⟩, "auth"⟩)).status = 200) ∧
    getDistanceCore ⟨0, 0⟩ ⟨0, 1⟩ (.error ⟨some ⟨429, some "Too many requests"⟩, "rate"⟩) =
      { status := 400
        body := .failure "Google Maps API error: 429 - Too many requests" } :=
  ⟨(distance_transport_fallback ⟨0, 0⟩ ⟨0, 1⟩ ⟨some ⟨401, none⟩, "auth"⟩).1.mpr
      ⟨⟨401, none⟩, rfl, Or.inl rfl⟩,
    (distance_transport_fallback ⟨0, 0⟩ ⟨0, 1⟩
        ⟨some ⟨429, some "Too many requests"⟩, "rate"⟩).2
      ⟨429, some "Too many requests"⟩ rfl (by decide) (by decide)⟩

/-- Counterexample to C2: a `/api/distance` query whose `origin.lat` string
coerces to NaN passes `querySchema.parse` (the transform never validates
the coerced number), and the upstream call is then attempted; likewise a
`/api/weather` query with `lat = "Infinity"` coerces to Infinity, which
zod v3's `z.number()` accepts, so validation succeeds and the upstream
call is attempted. -/
theorem validation_gap_cex :
    (parseDistanceQuery ⟨some .nan, some (.num 0), some (.num 0), some (.num 0)⟩).isOk = true ∧
    distanceAttemptsUpstream ⟨some .nan, some (.num 0), some (.num 0), some (.num 0)⟩ true
      = true ∧
    (parseWeatherQuery ⟨some .inf, some (.num 0)⟩).isOk = true ∧
    weatherAttemptsUpstream ⟨some .inf, some (.num 0)⟩ true = true :=
  ⟨rfl, rfl, rfl, rfl⟩

/-- C2 (amended): a missing `lat`/`lng` field on either endpoint fails
validation before any upstream call is attempted, and on `/api/weather` a
coercion yielding NaN also fails; but a coercion yielding ±Infinity passes
`/api/weather` validation, and on `/api/distance` any present string field
passes validation whatever its coercion yields (NaN and ±Infinity
included), after which the upstream call is attempted. -/
theorem validation_rejections (qw : WeatherQuery) (qd : DistanceQuery) (keyC : Bool) :
    ((qw.lat = none ∨ qw.lat = some .nan ∨ qw.lng = none ∨ qw.lng = some .nan) →
      parseWeatherQuery qw = .error () ∧ weatherAttemptsUpstream qw keyC = false) ∧
    ((qd.originLat = none ∨ qd.originLng = none ∨ qd.destLat = none ∨ qd.destLng = none) →
      parseDistanceQuery qd = .error () ∧ distanceAttemptsUpstream qd keyC = false) ∧
    (∀ a b c d : JsNum, parseDistanceQuery ⟨some a, some b, some c, some d⟩ =
      .ok ((a, b), (c, d))) := by
  refine ⟨?_, ?_, fun a b c d => rfl⟩
  · intro h
    have herr : parseWeatherQuery qw = .error () := by
      unfold parseWeatherQuery coerceQuery
      rcases h with h | h | h | h <;> rw [h] <;>
        first
          | rfl
          | (cases hl : qw.lat with
              | none => cases hlg : qw.lng with
                | none => rfl
                | some v => simp [zodNumOk]
              | some v => simp [zodNumOk, Bool.and_false])
    exact ⟨herr, by simp [weatherAttemptsUpstream, herr, Except.isOk, Except.toBool]⟩
  · intro h
    obtain ⟨a, b, c, d⟩ := qd
    have herr : parseDistanceQuery ⟨a, b, c, d⟩ = .error () := by
      cases a <;> cases b <;> cases c <;> cases d <;>
        first
          | rfl
          | (exfalso; rcases h with h | h | h | h <;> simp at h)
    exact ⟨herr, by simp [distanceAttemptsUpstream, herr, Except.isOk, Except.toBool]⟩

/-- Witness for the amended C2 at concrete missing-field queries. -/
theorem validation_rejections_witness :
    (parseWeatherQuery ⟨none, some (.num 1)⟩ = .error () ∧
      weatherAttemptsUpstream ⟨none, some (.num 1)⟩ true = false) ∧
    (parseDistanceQuery ⟨none, some (.num 1), some (.num 1), some (.num 1)⟩ = .error () ∧
      distanceAttemptsUpstream ⟨none, some (.num 1), some (.num 1), some (.num 1)⟩ true
        = false) :=
  ⟨(validation_rejections ⟨none, some (.num 1)⟩
        ⟨none, some (.num 1), some (.num 1), some (.num 1)⟩ true).1 (Or.inl rfl),
    (validation_rejections ⟨none, some (.num 1)⟩
        ⟨none, some (.num 1), some (.num 1), some (.num 1)⟩ true).2.1 (Or.inl rfl)⟩

/-- C1: on the success path, for any amount of upstream forecast data
(0 to N samples) the snapshot has exactly 4 daily entries with
`min <= max` after rounding to one decimal for each of them, and any day
bucket that received zero samples is back-filled with the rounded
current temperature ± 5 and the current condition. -/
theorem weather_daily_invariants (c : Coord) (nowMs : ℤ) (u : UpstreamWeather)
    (rand : ℕ → ℝ) :
    (getWeatherCore c nowMs (.ok u) rand).status = 200 ∧
    (getWeatherCore c nowMs (.ok u) rand).body.daily.length = 4 ∧
    (∀ df ∈ (getWeatherCore c nowMs (.ok u) rand).body.daily, df.temp.min ≤ df.temp.max) ∧
    (∀ i : ℕ, i < 4 → bucketItemsFor u nowMs i = [] →
      (getWeatherCore c nowMs (.ok u) rand).body.daily[i]? = some
        { temp := { min := roundTo1 (u.current.temp - 5)
                    max := roundTo1 (u.current.temp + 5) }
          weather := u.current.weather }) := by
  refine ⟨rfl, ?_, ?_, ?_⟩
  · simp [getWeatherCore, transformWeather]
  · intro df hdf
    simp only [getWeatherCore, transformWeather, List.mem_map] at hdf
    obtain ⟨i, hi, rfl⟩ := hdf
    have hok : bucketOk (bucketFor u nowMs i) :=
      foldl_updateBucket_ok (Or.inl ⟨rfl, rfl⟩) _
    rcases hok with ⟨h1, h2⟩ | ⟨m, M, h1, h2, h3⟩
    · simp only [finalizeBucket, h1, h2]
      exact roundTo1_mono (by linarith)
    · simp only [finalizeBucket, h1, h2]
      exact roundTo1_mono h3
  · intro i hi he
    have hmap : (getWeatherCore c nowMs (.ok u) rand).body.daily[i]? =
        some (finalizeBucket u.current (bucketFor u nowMs i)) := by
      simp [getWeatherCore, transformWeather, List.getElem?_range hi]
    rw [hmap]
    have hb : bucketFor u nowMs i = emptyBucket := by
      unfold bucketFor
      rw [he]
      rfl
    rw [hb]
    rfl

/-- Witness for C1: an empty forecast list back-fills day 0 from the
current reading. -/
theorem weather_daily_invariants_witness :
    (getWeatherCore ⟨0, 0⟩ 0 (.ok ⟨[], ⟨60, [⟨"01d", "clear"⟩]⟩, 0⟩) (fun _ => 0)).body.daily.length
      = 4 ∧
    (getWeatherCore ⟨0, 0⟩ 0 (.ok ⟨[], ⟨60, [⟨"01d", "clear"⟩]⟩, 0⟩) (fun _ => 0)).body.daily[0]?
      = some { temp := { min := roundTo1 (60 - 5), max := roundTo1 (60 + 5) }
               weather := [⟨"01d", "clear"⟩] } :=
  ⟨(weather_daily_invariants ⟨0, 0⟩ 0 ⟨[], ⟨60, [⟨"01d", "clear"⟩]⟩, 0⟩ (fun _ => 0)).2.1,
    (weather_daily_invariants ⟨0, 0⟩ 0 ⟨[], ⟨60, [⟨"01d", "clear"⟩]⟩, 0⟩ (fun _ => 0)).2.2.2
      0 (by norm_num) rfl⟩

/-- C6: forecast samples are bucketed by the queried location's local
calendar day — the upstream UTC epoch timestamp shifted by the upstream
timezone offset — into 4 buckets anchored at the local day of "now":
(1) samples outside the 4-day window change nothing;
(2) a sample at UTC midnight of day D with an offset such as UTC+9
(0 ≤ offset < 24h) lands on local day D itself;
(3) an in-window sample lands in exactly the bucket of its local day. -/
theorem weather_bucketing_timezone (u : UpstreamWeather) (nowMs : ℤ) :
    transformWeather u nowMs =
      transformWeather ⟨u.list.filter (inWindow u.tz nowMs), u.current, u.tz⟩ nowMs ∧
    (∀ tz D : ℤ, ∀ x : ℝ, ∀ w : WeatherEntry, 0 ≤ tz → tz < 86400 →
      sampleDay tz ⟨86400 * D, x, w⟩ = D) ∧
    (∀ it : ForecastItem, ∀ i : ℕ, i < 4 → u.list = [it] →
      sampleDay u.tz it = anchorDay u.tz nowMs + i →
      (transformWeather u nowMs).daily[i]? = some
        { temp := { min := roundTo1 it.temp, max := roundTo1 it.temp }
          weather := [it.weather] }) := by
  refine ⟨?_, ?_, ?_⟩
  · unfold transformWeather
    congr 1
    apply List.map_congr_left
    intro i hi
    rw [List.mem_range] at hi
    congr 1
    unfold bucketFor bucketItemsFor
    simp only
    rw [List.filter_filter]
    congr 1
    apply List.filter_congr
    intro it hit
    by_cases hd : sampleDay u.tz it = anchorDay u.tz nowMs + i
    · simp only [hd, decide_True, Bool.true_and, inWindow]
      have : (0 : ℤ) ≤ i := Int.ofNat_nonneg i
      have h4 : (i : ℤ) < 4 := by exact_mod_cast hi
      rw [decide_eq_true (by omega), decide_eq_true (by omega)]
      rfl
    · simp [hd]
  · intro tz D x w h1 h2
    simp only [sampleDay, localDayMs]
    omega
  · intro it i hi hl hd
    have hbi : bucketItemsFor u nowMs i = [it] := by
      unfold bucketItemsFor
      rw [hl]
      simp [hd]
    have hmap : (transformWeather u nowMs).daily[i]? =
        some (finalizeBucket u.current (bucketFor u nowMs i)) := by
      simp [transformWeather, List.getElem?_range hi]
    rw [hmap]
    unfold bucketFor
    rw [hbi]
    simp only [List.foldl_cons, List.foldl_nil]
    simp [finalizeBucket, updateBucket, emptyBucket, repWeather, mostCommonIcon,
      mostCommonScan, bumpCount, List.find?]

/-- Witness for C6 at concrete data: a single sample at UTC midnight of
epoch day 20000 with offset UTC+9 (32400 s) lands in bucket 0 when "now"
is noon (UTC) of that day. -/
theorem weather_bucketing_timezone_witness :
    sampleDay 32400 ⟨86400 * 20000, 12, ⟨"10d", "rain"⟩⟩ = 20000 ∧
    (transformWeather ⟨[⟨86400 * 20000, 12, ⟨"10d", "rain"⟩⟩], ⟨10, [⟨"01d", "clear"⟩]⟩, 32400⟩
        (20000 * 86400000 + 43200000)).daily[0]? = some
      { temp := { min := roundTo1 12, max := roundTo1 12 }
        weather := [⟨"10d", "rain"⟩] } := by
  refine ⟨?_, ?_⟩
  · exact (weather_bucketing_timezone
      ⟨[⟨86400 * 20000, 12, ⟨"10d", "rain"⟩⟩], ⟨10, [⟨"01d", "clear"⟩]⟩, 32400⟩
      (20000 * 86400000 + 43200000)).2.1 32400 20000 12 ⟨"10d", "rain"⟩
      (by norm_num) (by norm_num)
  · have h := (weather_bucketing_timezone
      ⟨[⟨86400 * 20000, 12, ⟨"10d", "rain"⟩⟩], ⟨10, [⟨"01d", "clear"⟩]⟩, 32400⟩
      (20000 * 86400000 + 43200000)).2.2 ⟨86400 * 20000, 12, ⟨"10d", "rain"⟩⟩ 0
      (by norm_num) rfl (by decide)
    simpa using h

/-! ### Frequency-table lemmas (for the representative-icon tie-break) -/

theorem bumpCount_fst (l : List (String × ℕ)) (i : String) :
    (bumpCount l i).map Prod.fst =
      if i ∈ l.map Prod.fst then l.map Prod.fst else l.map Prod.fst ++ [i] := by
  induction l with
  | nil => simp [bumpCount]
  | cons e t ih =>
      obtain ⟨j, n⟩ := e
      by_cases hj : j = i
      · subst hj
        simp [bumpCount]
      · have hji : ¬ i = j := fun h => hj h.symm
        simp only [bumpCount, if_neg hj, List.map_cons, List.mem_cons, hji, false_or]
        rw [ih]
        by_cases hm : i ∈ t.map Prod.fst
        · simp [hm]
        · simp [hm]

theorem lookupCnt_bumpCount_self (l : List (String × ℕ)) (i : String) :
    lookupCnt (bumpCount l i) i = lookupCnt l i + 1 := by
  induction l with
  | nil => simp [bumpCount, lookupCnt, List.find?]
  | cons e t ih =>
      obtain ⟨j, n⟩ := e
      by_cases hj : j = i
      · subst hj
        simp [bumpCount, lookupCnt, List.find?]
      · simp only [bumpCount, if_neg hj, lookupCnt, List.find?]
        rw [decide_eq_false hj]
        exact ih

theorem lookupCnt_bumpCount_other (l : List (String × ℕ)) (i x : String) (hx : x ≠ i) :
    lookupCnt (bumpCount l i) x = lookupCnt l x := by
  induction l with
  | nil =>
      simp only [bumpCount, lookupCnt, List.find?]
      rw [decide_eq_false (fun h => hx h.symm)]
  | cons e t ih =>
      obtain ⟨j, n⟩ := e
      by_cases hj : j = i
      · subst hj
        simp only [bumpCount, if_pos rfl, lookupCnt, List.find?]
        rw [decide_eq_false (fun h => hx h.symm)]
      · simp only [bumpCount, if_neg hj, lookupCnt, List.find?]
        by_cases hjx : j = x
        · rw [decide_eq_true hjx]
        · rw [decide_eq_false hjx]
          exact ih

theorem lookupCnt_foldl_bumpCount (seq : List String) (l : List (String × ℕ)) (x : String) :
    lookupCnt (seq.foldl bumpCount l) x = lookupCnt l x + seq.count x := by
  induction seq generalizing l with
  | nil => simp
  | cons s t ih =>
      rw [List.foldl_cons, ih, List.count_cons]
      by_cases hxs : x = s
      · subst hxs
        rw [lookupCnt_bumpCount_self]
        simp
        omega
      · rw [lookupCnt_bumpCount_other _ _ _ hxs]
        have : ¬ s = x := fun h => hxs h.symm
        simp [this]

theorem lookupCnt_countsOf (seq : List String) (x : String) :
    lookupCnt (countsOf seq) x = seq.count x := by
  have h := lookupCnt_foldl_bumpCount seq [] x
  simpa [countsOf, lookupCnt, List.find?] using h

theorem mem_fst_bumpCount (l : List (String × ℕ)) (i x : String) :
    x ∈ (bumpCount l i).map Prod.fst ↔ x ∈ l.map Prod.fst ∨ x = i := by
  rw [bumpCount_fst]
  by_cases hm : i ∈ l.map Prod.fst
  · simp only [if_pos hm]
    constructor
    · exact fun h => Or.inl h
    · rintro (h | rfl)
      · exact h
      · exact hm
  · simp [if_neg hm, List.mem_append]

theorem mem_fst_foldl_bumpCount (seq : List String) (l : List (String × ℕ)) (x : String) :
    x ∈ ((seq.foldl bumpCount l).map Prod.fst) ↔ x ∈ l.map Prod.fst ∨ x ∈ seq := by
  induction seq generalizing l with
  | nil => simp
  | cons s t ih =>
      rw [List.foldl_cons, ih, mem_fst_bumpCount]
      simp only [List.mem_cons]
      tauto

theorem mem_fst_countsOf (seq : List String) (x : String) :
    x ∈ (countsOf seq).map Prod.fst ↔ x ∈ seq := by
  rw [countsOf, mem_fst_foldl_bumpCount]
  simp

theorem nodup_fst_bumpCount (l : List (String × ℕ)) (i : String)
    (h : (l.map Prod.fst).Nodup) : ((bumpCount l i).map Prod.fst).Nodup := by
  rw [bumpCount_fst]
  by_cases hm : i ∈ l.map Prod.fst
  · simpa [if_pos hm] using h
  · rw [if_neg hm]
    rw [List.nodup_append]
    refine ⟨h, List.nodup_singleton i, ?_⟩
    intro a ha hb
    rw [List.mem_singleton] at hb
    subst hb
    exact hm ha

theorem nodup_fst_foldl_bumpCount (seq : List String) (l : List (String × ℕ))
    (h : (l.map Prod.fst).Nodup) : (((seq.foldl bumpCount l).map Prod.fst)).Nodup := by
  induction seq generalizing l with
  | nil => exact h
  | cons s t ih => exact ih _ (nodup_fst_bumpCount _ _ h)

theorem nodup_fst_countsOf (seq : List String) : ((countsOf seq).map Prod.fst).Nodup :=
  nodup_fst_foldl_bumpCount seq [] (by simp)

/-- In a table with no duplicate keys, every entry's value is the looked-up
count of its key. -/
theorem entry_eq_lookupCnt (l : List (String × ℕ)) (hnd : (l.map Prod.fst).Nodup)
    (e : String × ℕ) (he : e ∈ l) : e.2 = lookupCnt l e.1 := by
  induction l with
  | nil => cases he
  | cons f t ih =>
      rw [List.map_cons, List.nodup_cons] at hnd
      rcases List.mem_cons.mp he with rfl | ht
      · simp [lookupCnt, List.find?]
      · have hne : ¬ f.1 = e.1 := by
          intro hq
          exact hnd.1 (hq ▸ (List.mem_map.mpr ⟨e, ht, rfl⟩))
        simp only [lookupCnt, List.find?]
        rw [decide_eq_false hne]
        exact ih hnd.2 ht

theorem pairwise_indexOf_countsOf (seq : List String) :
    ((countsOf seq).map Prod.fst).Pairwise (fun a b => seq.indexOf a < seq.indexOf b) := by
  induction seq using List.reverseRecOn with
  | nil => simp [countsOf]
  | append_singleton t s ih =>
      have hc : countsOf (t ++ [s]) = bumpCount (countsOf t) s := by
        simp [countsOf, List.foldl_append]
      rw [hc, bumpCount_fst]
      have hmem : ∀ x ∈ (countsOf t).map Prod.fst, x ∈ t :=
        fun x hx => (mem_fst_countsOf t x).mp hx
      have hidx : ∀ x ∈ (countsOf t).map Prod.fst, (t ++ [s]).indexOf x = t.indexOf x :=
        fun x hx => List.indexOf_append_of_mem (hmem x hx)
      by_cases hm : s ∈ (countsOf t).map Prod.fst
      · rw [if_pos hm]
        refine List.Pairwise.imp_of_mem ?_ ih
        intro a b ha hb hab
        rw [hidx a ha, hidx b hb]
        exact hab
      · rw [if_neg hm, List.pairwise_append]
        refine ⟨List.Pairwise.imp_of_mem ?_ ih, by simp, ?_⟩
        · intro a b ha hb hab
          rw [hidx a ha, hidx b hb]
          exact hab
        · intro a ha b hb
          rw [List.mem_singleton] at hb
          rw [hb]
          rw [hidx a ha]
          have hs : s ∉ t := fun hst => hm ((mem_fst_countsOf t s).mpr hst)
          rw [List.indexOf_append_of_not_mem hs]
          have hlt : t.indexOf a < t.length := List.indexOf_lt_length.mpr (hmem a ha)
          have h0 : List.indexOf s [s] = 0 := List.indexOf_cons_self s []
          omega

theorem le_maxCnt (l : List (String × ℕ)) (e : String × ℕ) (he : e ∈ l) : e.2 ≤ maxCnt l := by
  induction l with
  | nil => cases he
  | cons f t ih =>
      rcases List.mem_cons.mp he with rfl | ht
      · simp only [maxCnt, List.foldr_cons]
        exact le_max_left _ _
      · simp only [maxCnt, List.foldr_cons]
        exact le_trans (ih ht) (le_max_right _ _)

theorem mostCommonScan_stay (l : List (String × ℕ)) (b : String) (n : ℕ)
    (h : ∀ e ∈ l, e.2 ≤ n) : mostCommonScan (b, n) l = (b, n) := by
  induction l generalizing b n with
  | nil => rfl
  | cons f t ih =>
      obtain ⟨i, c⟩ := f
      have hc : c ≤ n := h (i, c) (List.mem_cons_self _ _)
      simp only [mostCommonScan]
      rw [if_neg (by omega)]
      exact ih b n (fun e he => h e (List.mem_cons_of_mem _ he))

theorem mostCommonScan_finds_max (l : List (String × ℕ)) (b : String) (n : ℕ)
    (h : n < maxCnt l) :
    ∃ pre e post, l = pre ++ e :: post ∧ e.2 = maxCnt l ∧
      (∀ f ∈ pre, f.2 ≠ maxCnt l) ∧ mostCommonScan (b, n) l = e := by
  induction l generalizing b n with
  | nil => simp [maxCnt] at h
  | cons f t ih =>
      obtain ⟨i, c⟩ := f
      have hM : maxCnt ((i, c) :: t) = max c (maxCnt t) := by
        simp [maxCnt]
      by_cases hnc : n < c
      · by_cases hmt : maxCnt t ≤ c
        · have hMc : maxCnt ((i, c) :: t) = c := by rw [hM]; omega
          refine ⟨[], (i, c), t, by simp, by rw [hMc], by simp, ?_⟩
          simp only [mostCommonScan]
          rw [if_pos hnc]
          exact mostCommonScan_stay t i c (fun e he => le_trans (le_maxCnt t e he) hmt)
        · push_neg at hmt
          have hMt : maxCnt ((i, c) :: t) = maxCnt t := by rw [hM]; omega
          obtain ⟨pre, e, post, hsplit, hval, hpre, hscan⟩ := ih i c hmt
          refine ⟨(i, c) :: pre, e, post, by rw [hsplit, List.cons_append],
            by rw [hMt]; exact hval, ?_, ?_⟩
          · intro f hf
            rcases List.mem_cons.mp hf with rfl | hfp
            · rw [hMt]
              show c ≠ maxCnt t
              omega
            · rw [hMt]
              exact hpre f hfp
          · simp only [mostCommonScan]
            rw [if_pos hnc]
            exact hscan
      · have hmt : n < maxCnt t := by rw [hM] at h; omega
        have hMt : maxCnt ((i, c) :: t) = maxCnt t := by rw [hM]; omega
        obtain ⟨pre, e, post, hsplit, hval, hpre, hscan⟩ := ih b n hmt
        refine ⟨(i, c) :: pre, e, post, by rw [hsplit, List.cons_append],
          by rw [hMt]; exact hval, ?_, ?_⟩
        · intro f hf
          rcases List.mem_cons.mp hf with rfl | hfp
          · rw [hMt]
            show c ≠ maxCnt t
            omega
          · rw [hMt]
            exact hpre f hfp
        · simp only [mostCommonScan]
          rw [if_neg hnc]
          exact hscan

theorem lookupCnt_le_maxCnt (l : List (String × ℕ)) (x : String)
    (hx : x ∈ l.map Prod.fst) : lookupCnt l x ≤ maxCnt l := by
  cases hf : l.find? (fun e => e.1 = x) with
  | none =>
      obtain ⟨e, he, hex⟩ := List.mem_map.mp hx
      have := List.find?_eq_none.mp hf e he
      simp [hex] at this
  | some e =>
      have hel := List.mem_of_find?_eq_some hf
      have hlv : lookupCnt l x = e.2 := by simp [lookupCnt, hf]
      rw [hlv]
      exact le_maxCnt l e hel

theorem maxCnt_countsOf_pos (seq : List String) (h : seq ≠ []) : 0 < maxCnt (countsOf seq) := by
  obtain ⟨x, t, rfl⟩ := List.exists_cons_of_ne_nil h
  have hk : x ∈ (countsOf (x :: t)).map Prod.fst :=
    (mem_fst_countsOf _ _).mpr (List.mem_cons_self _ _)
  have h1 : lookupCnt (countsOf (x :: t)) x = (x :: t).count x := lookupCnt_countsOf _ _
  have h2 : 0 < (x :: t).count x := List.count_pos_iff.mpr (List.mem_cons_self _ _)
  have h3 := lookupCnt_le_maxCnt _ _ hk
  omega

theorem foldl_updateBucket_counts (items : List ForecastItem) (b : Bucket) :
    (items.foldl updateBucket b).counts =
      (items.map (fun it => it.weather.icon)).foldl bumpCount b.counts := by
  induction items generalizing b with
  | nil => rfl
  | cons it t ih =>
      rw [List.foldl_cons, List.map_cons, List.foldl_cons, ih]
      rfl

theorem foldl_updateBucket_weathers (items : List ForecastItem) (b : Bucket) :
    (items.foldl updateBucket b).weathers = b.weathers ++ items.map (fun it => it.weather) := by
  induction items generalizing b with
  | nil => simp
  | cons it t ih =>
      rw [List.foldl_cons, List.map_cons, ih]
      simp [updateBucket]

/-- C7: for each day bucket with at least one forecast sample, the
representative condition is the icon with the highest occurrence count
among the bucket's samples; on equal counts the winner is the icon whose
first occurrence appeared earliest in the sample sequence. -/
theorem weather_icon_tiebreak (u : UpstreamWeather) (nowMs : ℤ) (i : ℕ) (hi : i < 4)
    (seq : List String)
    (hseq : seq = (bucketItemsFor u nowMs i).map (fun it => it.weather.icon))
    (hne : seq ≠ []) :
    ∃ df w, (transformWeather u nowMs).daily[i]? = some df ∧
      df.weather = [w] ∧
      w.icon = mostCommonIcon (countsOf seq) ∧
      w.icon ∈ seq ∧
      (∀ x ∈ seq, seq.count x ≤ seq.count w.icon) ∧
      (∀ x ∈ seq, seq.count x = seq.count w.icon → seq.indexOf w.icon ≤ seq.indexOf x) := by
  have hitems_ne : bucketItemsFor u nowMs i ≠ [] := by
    intro h0
    exact hne (by rw [hseq, h0]; rfl)
  have hcounts : (bucketFor u nowMs i).counts = countsOf seq := by
    rw [bucketFor, foldl_updateBucket_counts, ← hseq]
    rfl
  have hweathers : (bucketFor u nowMs i).weathers =
      (bucketItemsFor u nowMs i).map (fun it => it.weather) := by
    rw [bucketFor, foldl_updateBucket_weathers]
    rfl
  have hok : bucketOk (bucketFor u nowMs i) :=
    foldl_updateBucket_ok (Or.inl ⟨rfl, rfl⟩) (bucketItemsFor u nowMs i)
  have hsome := bucketFor_minT_isSome u nowMs i hitems_ne
  obtain ⟨m, M, hm, hM, hmM⟩ : ∃ m M, (bucketFor u nowMs i).minT = some m ∧
      (bucketFor u nowMs i).maxT = some M ∧ m ≤ M := by
    rcases hok with ⟨h1, h2⟩ | good
    · rw [h1] at hsome
      cases hsome
    · exact good
  have hmax0 : 0 < maxCnt (countsOf seq) := maxCnt_countsOf_pos seq hne
  obtain ⟨pre, e, post, hsplit, hval, hpre, hscan⟩ :=
    mostCommonScan_finds_max (countsOf seq) "" 0 hmax0
  have hwinner : mostCommonIcon (countsOf seq) = e.1 := by
    rw [mostCommonIcon, hscan]
  have he_mem : e ∈ countsOf seq := by
    rw [hsplit]
    exact List.mem_append_right _ (List.mem_cons_self _ _)
  have hkey_mem : e.1 ∈ (countsOf seq).map Prod.fst := List.mem_map.mpr ⟨e, he_mem, rfl⟩
  have hwin_seq : e.1 ∈ seq := (mem_fst_countsOf seq e.1).mp hkey_mem
  have hnd := nodup_fst_countsOf seq
  have hcount_win : seq.count e.1 = maxCnt (countsOf seq) := by
    have h1 : e.2 = lookupCnt (countsOf seq) e.1 := entry_eq_lookupCnt _ hnd e he_mem
    have h2 : lookupCnt (countsOf seq) e.1 = seq.count e.1 := lookupCnt_countsOf _ _
    omega
  have hmaxprop : ∀ x ∈ seq, seq.count x ≤ seq.count e.1 := by
    intro x hx
    have hk : x ∈ (countsOf seq).map Prod.fst := (mem_fst_countsOf seq x).mpr hx
    have hle := lookupCnt_le_maxCnt _ _ hk
    rw [lookupCnt_countsOf] at hle
    omega
  have htie : ∀ x ∈ seq, seq.count x = seq.count e.1 → seq.indexOf e.1 ≤ seq.indexOf x := by
    intro x hx hcx
    by_cases hxe : x = e.1
    · rw [hxe]
    · have hk : x ∈ (countsOf seq).map Prod.fst := (mem_fst_countsOf seq x).mpr hx
      obtain ⟨ex, hex_mem, hex_fst⟩ := List.mem_map.mp hk
      have hex_val : ex.2 = seq.count x := by
        rw [entry_eq_lookupCnt _ hnd ex hex_mem, hex_fst, lookupCnt_countsOf]
      have hex_max : ex.2 = maxCnt (countsOf seq) := by omega
      have hex_not_pre : ex ∉ pre := fun hp => hpre ex hp hex_max
      have hex_in : ex ∈ e :: post := by
        have hmem2 : ex ∈ countsOf seq := hex_mem
        rw [hsplit] at hmem2
        rcases List.mem_append.mp hmem2 with h | h
        · exact absurd h hex_not_pre
        · exact h
      rcases List.mem_cons.mp hex_in with rfl | hpost
      · exact absurd hex_fst.symm hxe
      · have hpw := pairwise_indexOf_countsOf seq
        rw [hsplit, List.map_append, List.map_cons] at hpw
        have hparts := List.pairwise_append.mp hpw
        have hcons := List.pairwise_cons.mp hparts.2.1
        have hlt : seq.indexOf e.1 < seq.indexOf ex.1 :=
          hcons.1 ex.1 (List.mem_map.mpr ⟨ex, hpost, rfl⟩)
        rw [hex_fst] at hlt
        omega
  have hmap : (transformWeather u nowMs).daily[i]? =
      some (finalizeBucket u.current (bucketFor u nowMs i)) := by
    simp [transformWeather, List.getElem?_range hi]
  have hfind : ∃ w, (bucketFor u nowMs i).weathers.find?
      (fun w => w.icon = mostCommonIcon (bucketFor u nowMs i).counts) = some w := by
    have hx : ∃ w0 ∈ (bucketFor u nowMs i).weathers,
        (fun w => decide (w.icon = mostCommonIcon (bucketFor u nowMs i).counts)) w0 = true := by
      rw [hweathers, hcounts, hwinner]
      have hw2 := hwin_seq
      rw [hseq] at hw2
      obtain ⟨it, hit, hicon⟩ := List.mem_map.mp hw2
      exact ⟨it.weather, List.mem_map.mpr ⟨it, hit, rfl⟩, by simp [hicon]⟩
    have hsome2 : ((bucketFor u nowMs i).weathers.find?
        (fun w => w.icon = mostCommonIcon (bucketFor u nowMs i).counts)).isSome :=
      List.find?_isSome.mpr hx
    exact Option.isSome_iff_exists.mp hsome2
  obtain ⟨w, hw⟩ := hfind
  have hw_icon : w.icon = e.1 := by
    have hp := List.find?_some hw
    rw [hcounts, hwinner] at hp
    simpa using hp
  refine ⟨finalizeBucket u.current (bucketFor u nowMs i), w, hmap, ?_, ?_, ?_, ?_, ?_⟩
  · simp only [finalizeBucket, hm, hM]
    simp only [repWeather, hw]
  · rw [hw_icon, hwinner]
  · rw [hw_icon]
    exact hwin_seq
  · intro x hx
    rw [hw_icon]
    exact hmaxprop x hx
  · intro x hx hc
    rw [hw_icon] at hc ⊢
    exact htie x hx hc

/-- Witness for C7: four samples in one bucket with icons
02d, 01d, 02d, 01d tie at two occurrences each; the winner is the icon
whose first occurrence came first. -/
theorem weather_icon_tiebreak_witness :
    ∃ df w, (transformWeather
        ⟨[⟨0, 10, ⟨"02d", "few clouds"⟩⟩, ⟨10800, 11, ⟨"01d", "clear"⟩⟩,
          ⟨21600, 12, ⟨"02d", "few clouds"⟩⟩, ⟨32400, 13, ⟨"01d", "clear"⟩⟩],
          ⟨10, [⟨"01d", "clear"⟩]⟩, 0⟩ 0).daily[0]? = some df ∧
      df.weather = [w] ∧
      w.icon = mostCommonIcon (countsOf ["02d", "01d", "02d", "01d"]) ∧
      w.icon ∈ ["02d", "01d", "02d", "01d"] ∧
      (∀ x ∈ ["02d", "01d", "02d", "01d"],
        List.count x ["02d", "01d", "02d", "01d"] ≤
          List.count w.icon ["02d", "01d", "02d", "01d"]) ∧
      (∀ x ∈ ["02d", "01d", "02d", "01d"],
        List.count x ["02d", "01d", "02d", "01d"] =
          List.count w.icon ["02d", "01d", "02d", "01d"] →
        List.indexOf w.icon ["02d", "01d", "02d", "01d"] ≤
          List.indexOf x ["02d", "01d", "02d", "01d"]) :=
  weather_icon_tiebreak
    ⟨[⟨0, 10, ⟨"02d", "few clouds"⟩⟩, ⟨10800, 11, ⟨"01d", "clear"⟩⟩,
      ⟨21600, 12, ⟨"02d", "few clouds"⟩⟩, ⟨32400, 13, ⟨"01d", "clear"⟩⟩],
      ⟨10, [⟨"01d", "clear"⟩]⟩, 0⟩ 0 0 (by norm_num)
    ["02d", "01d", "02d", "01d"] (by decide) (by decide)

/-! ### URL-signing lemmas -/

theorem head?_dropWhile_false (p : Char → Bool) (l : List Char) (a : Char)
    (h : (l.dropWhile p).head? = some a) : p a = false := by
  induction l with
  | nil => cases h
  | cons c t ih =>
      rw [List.dropWhile_cons] at h
      by_cases hc : p c
      · rw [if_pos hc] at h
        exact ih h
      · rw [if_neg hc] at h
        rw [List.head?_cons] at h
        injection h with h2
        subst h2
        exact Bool.eq_false_iff.mpr hc

theorem stripTrailingEq_no_trailing (l : List Char) :
    (stripTrailingEq l).getLast? ≠ some '=' := by
  unfold stripTrailingEq
  rw [List.getLast?_reverse]
  intro h
  have := head?_dropWhile_false (fun c => c == '=') l.reverse '=' h
  simp at this

theorem mem_stripTrailingEq {a : Char} {l : List Char} (h : a ∈ stripTrailingEq l) :
    a ∈ l := by
  unfold stripTrailingEq at h
  rw [List.mem_reverse] at h
  have hsub := List.dropWhile_sublist (l := l.reverse) (p := fun c => c == '=')
  exact List.mem_reverse.mp (hsub.subset h)

theorem urlSafe_image (c0 : Char) :
    (if (if c0 = '+' then '-' else c0) = '/' then '_' else (if c0 = '+' then '-' else c0))
        ≠ '+' ∧
    (if (if c0 = '+' then '-' else c0) = '/' then '_' else (if c0 = '+' then '-' else c0))
        ≠ '/' := by
  by_cases h1 : c0 = '+'
  · subst h1
    decide
  · rw [if_neg h1]
    by_cases h2 : c0 = '/'
    · rw [if_pos h2]
      decide
    · rw [if_neg h2]
      exact ⟨h1, h2⟩

theorem no_plus_urlSafe (l : List Char) : '+' ∉ urlSafeChars l := by
  unfold urlSafeChars replChar
  intro h
  rw [List.map_map, List.mem_map] at h
  obtain ⟨c0, _, hc0⟩ := h
  exact (urlSafe_image c0).1 hc0

theorem no_slash_urlSafe (l : List Char) : '/' ∉ urlSafeChars l := by
  unfold urlSafeChars replChar
  intro h
  rw [List.map_map, List.mem_map] at h
  obtain ⟨c0, _, hc0⟩ := h
  exact (urlSafe_image c0).2 hc0

/-- C8: with a signing secret configured, `signGoogleMapsUrl` appends a
`signature` parameter equal to the HMAC-SHA1 digest of the URL's
path+query with the trailing credential (`key`) parameter excluded, keyed
by the base64-decoded secret, base64-encoded with `+`→`-`, `/`→`_` and
trailing `=` padding stripped — so the signature contains no `+`, no `/`
and no trailing `=`; with no secret configured the URL is returned
unchanged. -/
theorem url_signing (secret url : String) (pre tail pq : List Char)
    (hs : secret ≠ "")
    (hsplit : takeUntilSub ("&key=".data) url.data = pre)
    (hshape : url.data = pre ++ "&key=".data ++ tail)
    (hpq : urlPathQuery pre = some pq) :
    signGoogleMapsUrl secret url = url ++ "&signature=" ++ rawSignature secret pq ∧
    '+' ∉ (rawSignature secret pq).data ∧
    '/' ∉ (rawSignature secret pq).data ∧
    (rawSignature secret pq).data.getLast? ≠ some '=' ∧
    (∀ u2 : String, signGoogleMapsUrl "" u2 = u2) := by
  refine ⟨?_, ?_, ?_, ?_, fun u2 => by rw [signGoogleMapsUrl, if_pos rfl]⟩
  · rw [signGoogleMapsUrl, if_neg hs, hsplit, hpq]
  · intro h
    have h2 : '+' ∈ stripTrailingEq (urlSafeChars (b64encodeBytes
        (hmacSha1 (b64decodeStr secret) (utf8Bytes (String.mk pq))))) := h
    exact no_plus_urlSafe _ (mem_stripTrailingEq h2)
  · intro h
    have h2 : '/' ∈ stripTrailingEq (urlSafeChars (b64encodeBytes
        (hmacSha1 (b64decodeStr secret) (utf8Bytes (String.mk pq))))) := h
    exact no_slash_urlSafe _ (mem_stripTrailingEq h2)
  · exact stripTrailingEq_no_trailing _

/-- Witness for C8 at a concrete request URL and base64 secret. -/
theorem url_signing_witness :
    signGoogleMapsUrl "dGVzdA=="
        "https://maps.googleapis.com/maps/api/distancematrix/json?origins=1,2&destinations=3,4&key=APIKEY" =
      "https://maps.googleapis.com/maps/api/distancematrix/json?origins=1,2&destinations=3,4&key=APIKEY"
        ++ "&signature=" ++
        rawSignature "dGVzdA=="
          "/maps/api/distancematrix/json?origins=1,2&destinations=3,4".data ∧
    '+' ∉ (rawSignature "dGVzdA=="
        "/maps/api/distancematrix/json?origins=1,2&destinations=3,4".data).data ∧
    '/' ∉ (rawSignature "dGVzdA=="
        "/maps/api/distancematrix/json?origins=1,2&destinations=3,4".data).data ∧
    (rawSignature "dGVzdA=="
        "/maps/api/distancematrix/json?origins=1,2&destinations=3,4".data).data.getLast?
      ≠ some '=' ∧
    (∀ u2 : String, signGoogleMapsUrl "" u2 = u2) :=
  url_signing "dGVzdA=="
    "https://maps.googleapis.com/maps/api/distancematrix/json?origins=1,2&destinations=3,4&key=APIKEY"
    "https://maps.googleapis.com/maps/api/distancematrix/json?origins=1,2&destinations=3,4".data
    "APIKEY".data
    "/maps/api/distancematrix/json?origins=1,2&destinations=3,4".data
    (by decide) (by decide) (by decide) (by decide)

/-! ### Mock distance lemmas -/

theorem mockDistanceCalc_equator :
    mockDistanceCalc ⟨0, 0⟩ ⟨0, 1⟩ =
      (6371 * (Real.pi / 180) * 1.3, 100,
        round (6371 * (Real.pi / 180) * 1.3 / 100 * 60)) := by
  have hpi := Real.pi_gt_three
  have hth0 : (0 : ℝ) < Real.pi / 360 := by linarith
  have hthlt : Real.pi / 360 < Real.pi / 2 := by linarith
  have hsin0 : (0 : ℝ) ≤ Real.sin (Real.pi / 360) :=
    le_of_lt (Real.sin_pos_of_pos_of_lt_pi hth0 (by linarith))
  have hcos0 : (0 : ℝ) < Real.cos (Real.pi / 360) :=
    Real.cos_pos_of_mem_Ioo ⟨by linarith, hthlt⟩
  have ha : (0 - 0 : ℝ) * (Real.pi / 180) = 0 := by norm_num
  have hdlng : ((1 - 0 : ℝ) * (Real.pi / 180)) / 2 = Real.pi / 360 := by ring
  have hc2 : 1 - Real.sin (Real.pi / 360) * Real.sin (Real.pi / 360) =
      Real.cos (Real.pi / 360) * Real.cos (Real.pi / 360) := by
    linear_combination -Real.sin_sq_add_cos_sq (Real.pi / 360)
  have h5 : ¬ (6371 * (2 * (Real.pi / 360)) * (13 / 10 : ℝ) < 5) := by nlinarith
  have h20 : ¬ (6371 * (2 * (Real.pi / 360)) * (13 / 10 : ℝ) < 20) := by nlinarith
  have hlt1 : Real.sin (Real.pi / 360) * Real.sin (Real.pi / 360) < 1 := by
    nlinarith [Real.sin_sq_add_cos_sq (Real.pi / 360), hcos0]
  have hatan : Real.arctan (Real.sin (Real.pi / 360) / Real.cos (Real.pi / 360)) =
      Real.pi / 360 := by
    rw [← Real.tan_eq_sin_div_cos, Real.arctan_tan (by linarith) hthlt]
  unfold mockDistanceCalc jsAtan2
  simp only [ha]
  rw [hdlng]
  norm_num [Real.sin_zero, Real.cos_zero]
  rw [Real.sqrt_mul_self hsin0]
  rw [hc2, Real.sqrt_mul_self (le_of_lt hcos0)]
  rw [hatan]
  rw [if_pos hlt1]
  rw [if_neg h5, if_neg h20]
  refine ⟨by ring, rfl, ?_⟩
  congr 1
  ring

theorem mock_distance_refines_spec (o d : Coord) :
    generateMockDistanceData o d = specMockDistance o d := by
  unfold generateMockDistanceData specMockDistance mockDistanceCalc
  dsimp only
  have hhav : Real.sin ((d.lat - o.lat) * (Real.pi / 180) / 2) *
        Real.sin ((d.lat - o.lat) * (Real.pi / 180) / 2) +
      Real.cos (o.lat * (Real.pi / 180)) * Real.cos (d.lat * (Real.pi / 180)) *
        Real.sin ((d.lng - o.lng) * (Real.pi / 180) / 2) *
        Real.sin ((d.lng - o.lng) * (Real.pi / 180) / 2) =
      Real.sin ((d.lat - o.lat) * (Real.pi / 180) / 2) ^ 2 +
      Real.cos (o.lat * (Real.pi / 180)) * Real.cos (d.lat * (Real.pi / 180)) *
        Real.sin ((d.lng - o.lng) * (Real.pi / 180) / 2) ^ 2 := by ring
  rw [hhav]
  have hroad : 6371 * (2 * jsAtan2
        (Real.sqrt (Real.sin ((d.lat - o.lat) * (Real.pi / 180) / 2) ^ 2 +
          Real.cos (o.lat * (Real.pi / 180)) * Real.cos (d.lat * (Real.pi / 180)) *
            Real.sin ((d.lng - o.lng) * (Real.pi / 180) / 2) ^ 2))
        (Real.sqrt (1 - (Real.sin ((d.lat - o.lat) * (Real.pi / 180) / 2) ^ 2 +
          Real.cos (o.lat * (Real.pi / 180)) * Real.cos (d.lat * (Real.pi / 180)) *
            Real.sin ((d.lng - o.lng) * (Real.pi / 180) / 2) ^ 2)))) * 1.3 =
      1.3 * (6371 * (2 * jsAtan2
        (Real.sqrt (Real.sin ((d.lat - o.lat) * (Real.pi / 180) / 2) ^ 2 +
          Real.cos (o.lat * (Real.pi / 180)) * Real.cos (d.lat * (Real.pi / 180)) *
            Real.sin ((d.lng - o.lng) * (Real.pi / 180) / 2) ^ 2))
        (Real.sqrt (1 - (Real.sin ((d.lat - o.lat) * (Real.pi / 180) / 2) ^ 2 +
          Real.cos (o.lat * (Real.pi / 180)) * Real.cos (d.lat * (Real.pi / 180)) *
            Real.sin ((d.lng - o.lng) * (Real.pi / 180) / 2) ^ 2))))) := by ring
  rw [hroad]
  have hval : ∀ m : ℤ, m * 60 = 60 * m := fun m => by ring
  rw [hval]

/-- C9: the mock distance synthesizer computes exactly the spec's §4.5
pipeline — haversine distance (Earth radius 6371 km) times road factor
1.3, speed tier 30 km/h under 5 km, 60 km/h under 20 km, 100 km/h
otherwise, whole travel minutes, duration value minutes × 60 s with the
human-readable text, always element status "OK" and `isMockData: true` —
and for origin (0,0), destination (0,1) the 100 km/h highway tier applies
with strictly positive travel minutes. -/
theorem mock_distance_formula (origin destination : Coord) :
    generateMockDistanceData origin destination = specMockDistance origin destination ∧
    (generateMockDistanceData origin destination).isMockData = true ∧
    (generateMockDistanceData origin destination).rows.map
      (fun r => r.elements.map (fun el => el.status)) = [["OK"]] ∧
    (mockDistanceCalc ⟨0, 0⟩ ⟨0, 1⟩).2.1 = 100 ∧
    0 < (mockDistanceCalc ⟨0, 0⟩ ⟨0, 1⟩).2.2 := by
  refine ⟨mock_distance_refines_spec origin destination, rfl, rfl, ?_, ?_⟩
  · rw [mockDistanceCalc_equator]
  · rw [mockDistanceCalc_equator]
    show 0 < round (6371 * (Real.pi / 180) * 1.3 / 100 * 60)
    rw [round_eq]
    have h1 : (1 : ℤ) ≤ ⌊6371 * (Real.pi / 180) * 1.3 / 100 * 60 + 1 / 2⌋ := by
      rw [Int.le_floor]
      push_cast
      nlinarith [Real.pi_gt_three]
    omega
